import Mathlib

/-!
Shallow embedding of the soliplex configuration-resolution engine
(src/soliplex/config.py and src/soliplex/secrets.py), together with
theorems settling the specification claims about it.

Python strings are modelled as Lean `String`; Python `pathlib.Path`
values as `PyPath` (an absolute flag plus a component list, with the
usual joining / resolution rules); Python exceptions as the `PyExc`
inductive, with `Except PyExc` standing for fallible code; `os.environ`,
the filesystem and subprocess execution as an explicit `World` record.
Python dicts (which iterate in insertion order) are modelled as
association lists.
-/

namespace Soliplex

/-- Python str.startswith: the characters of the candidate occur
as an initial segment of the string. -/
def startswith (s pre : String) : Bool :=
  pre.data.isPrefixOf s.data

/-- Splitting a character list on a separator character (the semantics
of Python `str.split(sep)` for a one-character separator, and of
`String.splitOn`, but structurally recursive so that the kernel can
evaluate it). -/
def split_on_char_go (sep : Char) : List Char → List Char → List (List Char)
  | [], acc => [acc.reverse]
  | c :: cs, acc =>
      if c = sep then acc.reverse :: split_on_char_go sep cs []
      else split_on_char_go sep cs (c :: acc)

/-- Python `s.split(sep)` for a one-character separator. -/
def split_on_char (sep : Char) (s : String) : List String :=
  (split_on_char_go sep s.data []).map String.mk

/-- Python character-level slicing `s[n:]`. -/
def str_drop (s : String) (n : Nat) : String :=
  ⟨s.data.drop n⟩

/-- Whitespace as Python `str.strip()` sees it. -/
def is_space (c : Char) : Bool :=
  c = ' ' || c = '\t' || c = '\n' || c = '\r'

/-- Python `str.strip()`: drop leading and trailing whitespace. -/
def py_strip (s : String) : String :=
  ⟨((s.data.dropWhile is_space).reverse.dropWhile is_space).reverse⟩

/-- Outcome of `subprocess.check_output` at the OS level: either the
process could not be spawned (an `OSError`), or it ran to completion
with an exit code and captured stdout. -/
inductive SpawnResult where
  | spawnFailure
  | completed (exitCode : Nat) (output : String)
  deriving DecidableEq

/-- The Python exceptions the embedded code can raise.  The first four
constructors are the `SecretError` subclasses from secrets.py;
`calledProcessError` is `subprocess.CalledProcessError`, which is *not*
a `SecretError` (nor an `OSError`). -/
inductive PyExc where
  | secretEnvVarNotFound (secret_name env_var : String)
  | secretFilePathNotFound (secret_name : String) (file_path : String)
  | secretSubprocessError (secret_name : String) (command_line : String)
  | secretSourcesFailed (secret_name : String) (excs : List PyExc)
  | calledProcessError (command_line : List String) (exitCode : Nat)
  | missingEnvVar (env_var : String)
  | missingEnvVars (env_vars : String) (excs : List PyExc)
  | keyError (key : String)
  | fromYamlException (kind : String)
  | valueError (msg : String)
  | typeError (msg : String)
  | toolRequirementConflict (tool_name : String)

/-- Which exceptions are caught by `except SecretError` clauses
(the `SecretError` subclass hierarchy of secrets.py). -/
def PyExc.is_secret_error : PyExc → Bool
  | .secretEnvVarNotFound _ _ => true
  | .secretFilePathNotFound _ _ => true
  | .secretSubprocessError _ _ => true
  | .secretSourcesFailed _ _ => true
  | _ => false

/-- Model of `pathlib.Path`: an absolute flag plus the normalized
component list (Python's PurePath already drops empty and single-dot
components). -/
structure PyPath where
  absolute : Bool
  components : List String
  deriving DecidableEq

/-- Components of a path string: split on the separator, dropping empty
and single-dot components as `pathlib.PurePosixPath` does. -/
def path_components (s : String) : List String :=
  (split_on_char '/' s).filter (fun c => c != "" && c != ".")

/-- Parse a string into a `PyPath` (`pathlib.Path(s)`). -/
def PyPath.of_string (s : String) : PyPath :=
  ⟨startswith s "/", path_components s⟩

/-- The `Path.parent` property. -/
def PyPath.parent (p : PyPath) : PyPath :=
  ⟨p.absolute, p.components.dropLast⟩

/-- The `/` operator joining a path with a string: an absolute
right-hand operand replaces the left, a relative one is appended. -/
def PyPath.join (p : PyPath) (s : String) : PyPath :=
  if startswith s "/" then ⟨true, path_components s⟩
  else ⟨p.absolute, p.components ++ path_components s⟩

/-- Eliminate `..` components left to right (each one erasing the
preceding component), as `Path.resolve` does. -/
def resolve_components (acc : List String) : List String → List String
  | [] => acc.reverse
  | c :: rest =>
      if c = ".." then resolve_components (acc.drop 1) rest
      else resolve_components (c :: acc) rest

/-- The `Path.resolve()` method: make the path absolute against the
current working directory and eliminate `..` components. -/
def PyPath.resolve (p : PyPath) (cwd : PyPath) : PyPath :=
  let base := if p.absolute then p.components else cwd.components ++ p.components
  ⟨true, resolve_components [] base⟩

/-- The `str()` rendering of a path. -/
def PyPath.to_str (p : PyPath) : String :=
  if p.absolute then "/" ++ String.intercalate "/" p.components
  else if p.components = [] then "."
  else String.intercalate "/" p.components

/-- The ambient effects the secret getters touch: `os.environ`,
`Path.read_text` (`none` models an `OSError`), subprocess execution
and `os.urandom(n).hex()`. -/
structure World where
  os_environ : String → Option String
  read_text : PyPath → Option String
  run_process : String → List String → SpawnResult
  urandom_hex : Nat → String

/-! Secret sources (config.py).  `EnvVarSecretSource.__post_init__`
defaults a missing `env_var_name` to the secret name; that default is
applied by the `env_var_source` smart constructor below. -/

/-- The `SecretSource` union: each variant carries the fields its
strategy needs, plus the `_config_path` where relevant. -/
inductive SecretSource where
  | envVar (secret_name : String) (env_var_name : String)
  | filePath (secret_name : String) (file_path : String) (config_path : PyPath)
  | subprocess (secret_name : String) (command : String) (args : List String)
  | randomChars (secret_name : String) (n_chars : Nat)
  deriving DecidableEq

/-- Constructor for `EnvVarSecretSource`, applying the
`__post_init__` default of the env var name to the secret name. -/
def env_var_source (secret_name : String) (env_var_name : Option String) : SecretSource :=
  .envVar secret_name (env_var_name.getD secret_name)

/-- The `command_line` property of `SubprocessSecretSource`:
`" ".join([command, *args])`. -/
def command_line (command : String) (args : List String) : String :=
  String.intercalate " " (command :: args)

/-- secrets.get_env_var_secret: look the env var up in `os.environ`,
converting `KeyError` to `SecretEnvVarNotFound`. -/
def get_env_var_secret (w : World) (secret_name env_var_name : String) :
    Except PyExc String :=
  match w.os_environ env_var_name with
  | some v => .ok v
  | none => .error (.secretEnvVarNotFound secret_name env_var_name)

/-- secrets.get_file_path_secret: a relative file path is joined onto
the config file's directory; `OSError` from `read_text` becomes
`SecretFilePathNotFound`. -/
def get_file_path_secret (w : World) (secret_name file_path : String)
    (config_path : PyPath) : Except PyExc String :=
  let p := PyPath.of_string file_path
  let p := if p.absolute then p else config_path.parent.join file_path
  match w.read_text p with
  | some text => .ok text
  | none => .error (.secretFilePathNotFound secret_name p.to_str)

/-- secrets.get_subprocess_secret: `check_output` raises `OSError` when
the process cannot be spawned (converted to `SecretSubprocessError`) and
`CalledProcessError` on a non-zero exit (NOT caught by the
`except OSError` clause, so it escapes as-is); empty captured output is
a `SecretSubprocessError`; otherwise the stripped output is returned. -/
def get_subprocess_secret (w : World) (secret_name command : String)
    (args : List String) : Except PyExc String :=
  match w.run_process command args with
  | .spawnFailure => .error (.secretSubprocessError secret_name (command_line command args))
  | .completed exitCode output =>
      if exitCode ≠ 0 then .error (.calledProcessError (command :: args) exitCode)
      else if output = "" then
        .error (.secretSubprocessError secret_name (command_line command args))
      else .ok (py_strip output)

/-- secrets.get_random_chars_secret: `os.urandom(n_chars).hex()`. -/
def get_random_chars_secret (w : World) (n_chars : Nat) : Except PyExc String :=
  .ok (w.urandom_hex n_chars)

/-- Dispatch through `SECRET_GETTERS_BY_KIND` on the source's kind. -/
def run_source (w : World) : SecretSource → Except PyExc String
  | .envVar secret_name env_var_name => get_env_var_secret w secret_name env_var_name
  | .filePath secret_name file_path config_path =>
      get_file_path_secret w secret_name file_path config_path
  | .subprocess secret_name command args => get_subprocess_secret w secret_name command args
  | .randomChars _ n_chars => get_random_chars_secret w n_chars

/-- The `SecretConfig` dataclass: a secret name plus its ordered
sources. -/
structure SecretConfig where
  secret_name : String
  sources : List SecretSource
  deriving DecidableEq

/-- Direct construction of a `SecretConfig` (the dataclass constructor
followed by `__post_init__`): when no sources are given (`None`), a
single env-var source named after the secret is installed; an
explicitly passed list — empty or not — is kept as-is. -/
def SecretConfig.make (secret_name : String) (sources : Option (List SecretSource)) :
    SecretConfig :=
  match sources with
  | none => ⟨secret_name, [.envVar secret_name secret_name]⟩
  | some srcs => ⟨secret_name, srcs⟩

/-- The `while sources:` loop of secrets.get_secret, with the `excs`
accumulator: each source is tried in order; a `SecretError` is appended
to `excs` and the next source tried; any other exception propagates;
when the sources run out, `SecretSourcesFailed` aggregates `excs`. -/
def get_secret_go (w : World) (secret_name : String) :
    List SecretSource → List PyExc → Except PyExc String
  | [], excs => .error (.secretSourcesFailed secret_name excs)
  | s :: rest, excs =>
      match run_source w s with
      | .ok v => .ok v
      | .error e =>
          if e.is_secret_error then get_secret_go w secret_name rest (excs ++ [e])
          else .error e

/-- secrets.get_secret. -/
def get_secret (w : World) (sc : SecretConfig) : Except PyExc String :=
  get_secret_go w sc.secret_name sc.sources []

/-! Environment resolution (config.py). -/

/-- config.resolve_file_prefix: a value carrying the `file:` prefix is
replaced by `str((config_path.parent / rest).resolve())`; any other
value is returned unchanged. -/
def resolve_file_prefix (config_str : String) (config_path : PyPath) (cwd : PyPath) :
    String :=
  if startswith config_str "file:" then
    ((config_path.parent.join (str_drop config_str 5)).resolve cwd).to_str
  else config_str

/-- config.resolve_environment_entry: a key present in the dotenv
overlay wins outright; otherwise a non-null declared value; otherwise
the process environment; otherwise `MissingEnvVar`. -/
def resolve_environment_entry (env_name : String) (env_value : Option String)
    (dotenv_env : List (String × String)) (process_env : String → Option String) :
    Except PyExc String :=
  match dotenv_env.lookup env_name with
  | some v => .ok v
  | none =>
      match env_value with
      | none =>
          match process_env env_name with
          | some v => .ok v
          | none => .error (.missingEnvVar env_name)
      | some v => .ok v

/-- The slice of `InstallationConfig` that environment resolution
touches: the declared environment map (insertion-ordered; a `none`
value is a declared-but-null entry) and the installation file's path. -/
structure InstallationConfig where
  id : String
  environment : List (String × Option String)
  config_path : PyPath
  deriving DecidableEq

/-- Ambient inputs of `InstallationConfig.resolve_environment`: the
parsed sibling `.env` overlay (empty when the file is missing), the
process environment, and the working directory `Path.resolve` runs
against. -/
structure EnvWorld where
  dotenv_env : List (String × String)
  os_environ : String → Option String
  cwd : PyPath

/-- The per-key loop of `resolve_environment`, threading the `resolved`
map and the `failed` / `excs` accumulators in declared key order.  Only
`MissingEnvVar` is caught (`resolve_environment_entry` raises nothing
else); its `env_var` attribute — the key — is appended to `failed`. -/
def resolve_env_loop (dotenv_env : List (String × String))
    (os_env : String → Option String) :
    List (String × Option String) → List (String × String) →
    List String → List PyExc →
    List (String × String) × List String × List PyExc
  | [], resolved, failed, excs => (resolved, failed, excs)
  | (k, v) :: rest, resolved, failed, excs =>
      match resolve_environment_entry k v dotenv_env os_env with
      | .ok r => resolve_env_loop dotenv_env os_env rest (resolved ++ [(k, r)]) failed excs
      | .error _ =>
          resolve_env_loop dotenv_env os_env rest resolved (failed ++ [k])
            (excs ++ [.missingEnvVar k])

/-- config.InstallationConfig.resolve_environment: resolve every
declared key, aggregating all failures; raise `MissingEnvVars` (leaving
`self.environment` untouched) when any key failed, otherwise replace
`self.environment` with the resolved values after applying the `file:`
indirection to each.  The pair returned is (post-call state, raised
exception if any). -/
def resolve_environment (cfg : InstallationConfig) (w : EnvWorld) :
    InstallationConfig × Option PyExc :=
  match resolve_env_loop w.dotenv_env w.os_environ cfg.environment [] [] [] with
  | (resolved, failed, excs) =>
      match excs with
      | [] =>
          let final := resolved.map
            (fun kv => (kv.1, some ( resolve_file_prefix kv.2 cfg.config_path w.cwd)))
          ({ cfg with environment := final }, none)
      | _ => (cfg, some (.missingEnvVars (String.intercalate "," failed) excs))

/-! Multi-path discovery of room configs (config.py `_find_configs`
and `InstallationConfig._load_room_configs`).  A parsed YAML document
is modelled by the fields the claims concern (`id`, `name`); a search
root by the document at `root/room_config.yaml` (if that file exists)
plus its immediate subdirectory entries, each carrying the document at
`sub/room_config.yaml` when present. -/

/-- A parsed `room_config.yaml` document, restricted to the declared
`id` and `name` fields. -/
structure RoomDocYaml where
  id : String
  name : String
  deriving DecidableEq

/-- A search root directory as `_find_configs` observes it. -/
structure SearchRoot where
  own_config : Option RoomDocYaml
  subdirs : List (String × Option RoomDocYaml)
  deriving DecidableEq

/-- Insertion step of sorting subdirectory entries by name. -/
def insert_by_name (x : String × Option RoomDocYaml) :
    List (String × Option RoomDocYaml) → List (String × Option RoomDocYaml)
  | [] => [x]
  | y :: ys => if x.1 ≤ y.1 then x :: y :: ys else y :: insert_by_name x ys

/-- The `sorted(to_search.glob("*"))` ordering of subdirectory
entries. -/
def sort_subdirs (l : List (String × Option RoomDocYaml)) :
    List (String × Option RoomDocYaml) :=
  l.foldr insert_by_name []

/-- config._find_configs: if the root has its own config file, yield
exactly that document; otherwise yield the documents of the sorted
immediate subdirectories that have one (those without are skipped). -/
def _find_configs (root : SearchRoot) : List RoomDocYaml :=
  match root.own_config with
  | some y => [y]
  | none => (sort_subdirs root.subdirs).filterMap Prod.snd

/-- `RoomConfig`, restricted to the fields the claims concern. -/
structure RoomConfig where
  id : String
  name : String
  deriving DecidableEq

/-- RoomConfig.from_yaml on the modelled document fields. -/
def RoomConfig.from_yaml (y : RoomDocYaml) : RoomConfig := ⟨y.id, y.name⟩

/-- config.InstallationConfig._load_room_configs: iterate the room
paths in declared order, and for each discovered document insert it
keyed by its declared id only when that id is not yet present
(first-past-the-post). -/
def _load_room_configs (roots : List SearchRoot) : List (String × RoomConfig) :=
  ((roots.map _find_configs).flatten).foldl
    (fun m y => if (m.lookup y.id).isSome then m else m ++ [(y.id, RoomConfig.from_yaml y)])
    []

/-! Tool configuration (config.py): the `ToolConfig` base class, the
`SearchDocumentsToolConfig` variant, the registry dispatch of
`extract_tool_configs`, and the capability classification.  A Python
invokable is modelled by its declared parameter names plus a
kwargs-style call function. -/

/-- The `ToolRequires` string enum. -/
inductive ToolRequires where
  | fastapi_context
  | tool_config
  | bare
  deriving DecidableEq

/-- The base `ToolConfig` dataclass fields. -/
structure ToolConfig where
  tool_name : String
  allow_mcp : Bool := false
  deriving DecidableEq

/-- Values a modelled Python call can pass or return. -/
inductive PyVal where
  | str (s : String)
  | toolConfig (tc : ToolConfig)
  | pyNone
  deriving DecidableEq

/-- A Python invokable: its externally visible parameter names
(in order) and its behaviour on keyword arguments. -/
structure PyCallable where
  params : List String
  call : List (String × PyVal) → PyVal

/-- `functools.partial` keyword merging: call-site keywords override
the pre-bound ones, and fresh call-site keywords are appended. -/
def dict_update (base upd : List (String × PyVal)) : List (String × PyVal) :=
  base.map (fun kv => (kv.1, (upd.lookup kv.1).getD kv.2)) ++
    upd.filter (fun kv => (base.lookup kv.1).isNone)

/-- config.ToolConfig.tool_requires: declaring both a `ctx` and a
`tool_config` parameter is a `ToolRequirementConflict`; else `ctx`
alone means `FASTAPI_CONTEXT`, `tool_config` alone means
`TOOL_CONFIG`, neither means `BARE`. -/
def tool_requires (tc : ToolConfig) (tool_params : List String) :
    Except PyExc ToolRequires :=
  if "ctx" ∈ tool_params ∧ "tool_config" ∈ tool_params then
    .error (.toolRequirementConflict tc.tool_name)
  else if "ctx" ∈ tool_params then .ok .fastapi_context
  else if "tool_config" ∈ tool_params then .ok .tool_config
  else .ok .bare

/-- config.ToolConfig.tool_with_config: for a `TOOL_CONFIG` tool,
produce a wrapper whose visible signature drops the `tool_config`
parameter and whose calls pre-bind `tool_config` to the config object;
any other classification returns the tool unchanged (and the
classification conflict propagates). -/
def tool_with_config (tc : ToolConfig) (tool : PyCallable) : Except PyExc PyCallable :=
  match tool_requires tc tool.params with
  | .error e => .error e
  | .ok r =>
      if r = ToolRequires.tool_config then
        .ok ⟨tool.params.filter (fun p => p != "tool_config"),
          fun kwargs => tool.call (dict_update [("tool_config", .toolConfig tc)] kwargs)⟩
      else .ok tool

/-- A YAML `tools:` entry, restricted to the keys the modelled classes
accept (a `none` optional field stands for an absent key). -/
structure ToolYaml where
  tool_name : String
  allow_mcp : Bool := false
  kind : Option String := none
  rag_lancedb_stem : Option String := none
  rag_lancedb_override_path : Option String := none
  deriving DecidableEq

/-- config.ToolConfig.from_yaml: `cls(**config)` accepts only the base
fields, so a document carrying variant-specific keys raises `TypeError`,
re-raised as `FromYamlException`. -/
def ToolConfig.from_yaml (y : ToolYaml) : Except PyExc ToolConfig :=
  if y.kind.isNone && y.rag_lancedb_stem.isNone && y.rag_lancedb_override_path.isNone then
    .ok ⟨y.tool_name, y.allow_mcp⟩
  else .error (.fromYamlException "toolconfig")

/-- The `SearchDocumentsToolConfig` dataclass fields.  Note that
`kind` here is an ordinary field with default "search_documents", not
the derived property of the base class. -/
structure SearchDocumentsToolConfig where
  kind : String := "search_documents"
  tool_name : String := "soliplex.tools.search_documents"
  allow_mcp : Bool := false
  rag_lancedb_stem : Option String := none
  rag_lancedb_override_path : Option String := none
  expand_context_radius : Nat := 2
  search_documents_limit : Nat := 5
  return_citations : Bool := false
  deriving DecidableEq

/-- Python truthiness of an optional string (`filter(None, ...)`
drops both `None` and the empty string). -/
def truthy (o : Option String) : Bool :=
  match o with
  | none => false
  | some s => s != ""

/-- The `cls(**config)` field assignment of
`SearchDocumentsToolConfig.from_yaml`: document keys override the
dataclass defaults (in particular `kind` defaults to
"search_documents" only when the document does not set it). -/
def sdtc_of (y : ToolYaml) : SearchDocumentsToolConfig :=
  { kind := y.kind.getD "search_documents"
    tool_name := y.tool_name
    allow_mcp := y.allow_mcp
    rag_lancedb_stem := y.rag_lancedb_stem
    rag_lancedb_override_path := y.rag_lancedb_override_path }

/-- config.SearchDocumentsToolConfig.from_yaml, including the
`__post_init__` check that exactly one of the stem / override-path
options is (truthily) given. -/
def SearchDocumentsToolConfig.from_yaml (y : ToolYaml) :
    Except PyExc SearchDocumentsToolConfig :=
  if ([y.rag_lancedb_stem, y.rag_lancedb_override_path].filter truthy).length = 1 then
    .ok (sdtc_of y)
  else .error (.fromYamlException "sdtc")

/-- The keys of `TOOL_CONFIG_CLASSES_BY_TOOL_NAME`. -/
def TOOL_CONFIG_REGISTERED_NAMES : List String := ["soliplex.tools.search_documents"]

/-- A constructed tool config: the registered variant or the bare base
class. -/
inductive ToolConfigVariant where
  | base (tc : ToolConfig)
  | search (tc : SearchDocumentsToolConfig)
  deriving DecidableEq

/-- The per-entry step of config.extract_tool_configs:
`TOOL_CONFIG_CLASSES_BY_TOOL_NAME.get(tool_name, ToolConfig)` followed
by the chosen class's `from_yaml`. -/
def build_tool_config (y : ToolYaml) : Except PyExc ToolConfigVariant :=
  if TOOL_CONFIG_REGISTERED_NAMES.contains y.tool_name then
    (SearchDocumentsToolConfig.from_yaml y).map ToolConfigVariant.search
  else (ToolConfig.from_yaml y).map ToolConfigVariant.base

/-- config.ToolConfig.kind: `tool_name.rsplit(".", 1)` unpacked into
two names — a dotless `tool_name` makes the unpacking raise
`ValueError`. -/
def ToolConfig.kind_attr (tc : ToolConfig) : Except PyExc String :=
  match (split_on_char '.' tc.tool_name).reverse with
  | [] => .error (.valueError "not enough values to unpack")
  | [_] => .error (.valueError "not enough values to unpack")
  | k :: _ => .ok k

/-- Reading the `kind` attribute of a constructed tool config: the
base class computes it from `tool_name`, the search variant stores it
as a field. -/
def ToolConfigVariant.kind_attr : ToolConfigVariant → Except PyExc String
  | .base tc => tc.kind_attr
  | .search tc => .ok tc.kind

/-- Python dict assignment `m[k] = v`: overwrite in place when the key
exists, else append. -/
def dict_set (m : List (String × ToolConfigVariant)) (k : String)
    (v : ToolConfigVariant) : List (String × ToolConfigVariant) :=
  if (m.lookup k).isSome then m.map (fun kv => if kv.1 = k then (k, v) else kv)
  else m ++ [(k, v)]

/-- The `for t_config in config.pop("tools", ())` loop of
config.extract_tool_configs: build each entry through the registry and
store it keyed by its `kind` attribute; any exception propagates. -/
def extract_tool_configs_go (acc : List (String × ToolConfigVariant)) :
    List ToolYaml → Except PyExc (List (String × ToolConfigVariant))
  | [] => .ok acc
  | y :: rest =>
      match build_tool_config y with
      | .error e => .error e
      | .ok tc =>
          match ToolConfigVariant.kind_attr tc with
          | .error e => .error e
          | .ok k => extract_tool_configs_go (dict_set acc k tc) rest

/-- config.extract_tool_configs. -/
def extract_tool_configs (entries : List ToolYaml) :
    Except PyExc (List (String × ToolConfigVariant)) :=
  extract_tool_configs_go [] entries

/-- A YAML `mcp_client_toolsets:` entry, restricted to the keys the
two variant classes accept. -/
structure McpYaml where
  kind : String
  command : Option String := none
  args : List String := []
  env : List (String × String) := []
  url : Option String := none
  headers : List (String × String) := []
  query_params : List (String × String) := []
  allowed_tools : Option (List String) := none
  deriving DecidableEq

/-- A constructed MCP client toolset config (the
`Stdio_MCP_ClientToolsetConfig | HTTP_MCP_ClientToolsetConfig`
union). -/
inductive MCP_ClientToolsetConfig where
  | stdio (command : String) (args : List String) (env : List (String × String))
      (allowed_tools : Option (List String))
  | http (url : String) (headers : List (String × String))
      (query_params : List (String × String)) (allowed_tools : Option (List String))
  deriving DecidableEq

/-- The per-entry step of config.extract_mcp_client_toolset_configs:
`MCP_TOOLSET_CONFIG_CLASSES_BY_KIND[kind]` — an unregistered kind is a
`KeyError` — followed by the chosen class's `from_yaml`, whose
`cls(**config)` raises `TypeError` (re-raised as `FromYamlException`)
when the variant's required field is absent. -/
def build_mcp_client_toolset_config (y : McpYaml) :
    Except PyExc MCP_ClientToolsetConfig :=
  if y.kind = "stdio" then
    match y.command with
    | some c => .ok (.stdio c y.args y.env y.allowed_tools)
    | none => .error (.fromYamlException "stdio_mcptc")
  else if y.kind = "http" then
    match y.url with
    | some u => .ok (.http u y.headers y.query_params y.allowed_tools)
    | none => .error (.fromYamlException "http_mcptc")
  else .error (.keyError y.kind)

/-- The `for mcp_name, ... in config.pop("mcp_client_toolsets", {})`
loop of config.extract_mcp_client_toolset_configs; any exception
propagates. -/
def extract_mcp_client_toolset_configs_go
    (acc : List (String × MCP_ClientToolsetConfig)) :
    List (String × McpYaml) → Except PyExc (List (String × MCP_ClientToolsetConfig))
  | [] => .ok acc
  | kv :: rest =>
      match build_mcp_client_toolset_config kv.2 with
      | .error e => .error e
      | .ok c => extract_mcp_client_toolset_configs_go (acc ++ [(kv.1, c)]) rest

/-- config.extract_mcp_client_toolset_configs over the named entries of
the `mcp_client_toolsets` mapping. -/
def extract_mcp_client_toolset_configs (entries : List (String × McpYaml)) :
    Except PyExc (List (String × MCP_ClientToolsetConfig)) :=
  extract_mcp_client_toolset_configs_go [] entries

/-! Secret config construction from YAML (config.py
`SecretConfig.from_yaml` and the secret-source registry). -/

/-- A YAML secret-source entry, restricted to the keys the four source
classes accept. -/
structure SourceYaml where
  kind : String
  env_var_name : Option String := none
  file_path : Option String := none
  command : Option String := none
  args : List String := []
  n_chars : Option Nat := none
  deriving DecidableEq

/-- Build one secret source through `SourceClassesByKind`: an
unregistered kind is a `KeyError`; a missing required field raises
`TypeError` from the dataclass constructor. -/
def build_secret_source (secret_name : String) (config_path : PyPath)
    (y : SourceYaml) : Except PyExc SecretSource :=
  if y.kind = "env_var" then .ok (env_var_source secret_name y.env_var_name)
  else if y.kind = "file_path" then
    match y.file_path with
    | some fp => .ok (.filePath secret_name fp config_path)
    | none => .error (.typeError "missing required argument: file_path")
  else if y.kind = "subprocess" then
    match y.command with
    | some c => .ok (.subprocess secret_name c y.args)
    | none => .error (.typeError "missing required argument: command")
  else if y.kind = "random_chars" then .ok (.randomChars secret_name (y.n_chars.getD 32))
  else .error (.keyError y.kind)

/-- The source-building loop of `SecretConfig.from_yaml`, in declared
order. -/
def build_sources (secret_name : String) (config_path : PyPath) :
    List SourceYaml → Except PyExc (List SecretSource)
  | [] => .ok []
  | y :: ys =>
      match build_secret_source secret_name config_path y with
      | .error e => .error e
      | .ok s =>
          match build_sources secret_name config_path ys with
          | .error e => .error e
          | .ok rest => .ok (s :: rest)

/-- A YAML `secrets:` entry: either a bare string (the secret name) or
a mapping with a `secret_name` and an optional `sources` list. -/
inductive SecretYaml where
  | str (secret_name : String)
  | dict (secret_name : String) (sources : Option (List SourceYaml))
  deriving DecidableEq

/-- config.SecretConfig.from_yaml: a bare-string entry is rewritten to
a mapping with one explicit env-var source; then the declared sources
are iterated (`for source_config in source_configs` — a mapping that
omits `sources` leaves `source_configs = None`, so the iteration itself
raises `TypeError`) and the dataclass constructor is invoked with the
built list. -/
def SecretConfig.from_yaml (config_path : PyPath) (cfg : SecretYaml) :
    Except PyExc SecretConfig :=
  let parts :=
    match cfg with
    | .str s => (s, some [{ kind := "env_var", env_var_name := some s : SourceYaml }])
    | .dict n srcs => (n, srcs)
  match parts.2 with
  | none => .error (.typeError "NoneType object is not iterable")
  | some source_configs =>
      (build_sources parts.1 config_path source_configs).map
        (fun srcs => SecretConfig.make parts.1 (some srcs))

/-! Theorems.  Helper lemmas come first; the claim theorems, their
witnesses and counterexamples follow. -/

/-- Helper: if source `i` succeeds and every source before it fails
with a `SecretError`, the `get_secret` loop returns source `i`'s value
whatever the accumulated exceptions are. -/
theorem get_secret_go_first_success (w : World) (name : String)
    (srcs : List SecretSource) :
    ∀ (excs : List PyExc) (i : Nat) (hi : i < srcs.length) (v : String),
      run_source w (srcs.get ⟨i, hi⟩) = .ok v →
      (∀ j (hj : j < i), ∃ e,
        run_source w (srcs.get ⟨j, Nat.lt_trans hj hi⟩) = .error e ∧
        e.is_secret_error = true) →
      get_secret_go w name srcs excs = .ok v := by
  induction srcs with
  | nil => intro excs i hi; exact absurd hi (by simp)
  | cons s rest ih =>
    intro excs i hi v hok hfail
    match i with
    | 0 =>
      have hs : run_source w s = .ok v := hok
      simp [get_secret_go, hs]
    | Nat.succ j =>
      obtain ⟨e, he, hse⟩ := hfail 0 (Nat.succ_pos j)
      have he' : run_source w s = .error e := he
      simp only [get_secret_go, he', hse, if_true]
      exact ih (excs ++ [e]) j (Nat.lt_of_succ_lt_succ hi) v hok
        (fun k hk => hfail (k + 1) (Nat.succ_lt_succ hk))

/-- Helper: if every source fails with a `SecretError`, the loop ends
with the aggregate error carrying the accumulated exceptions followed
by the per-source ones in order. -/
theorem get_secret_go_all_fail (w : World) (name : String) :
    ∀ (srcs : List SecretSource) (es excs : List PyExc),
      List.Forall₂
        (fun s e => run_source w s = .error e ∧ e.is_secret_error = true) srcs es →
      get_secret_go w name srcs excs =
        .error (.secretSourcesFailed name (excs ++ es)) := by
  intro srcs
  induction srcs with
  | nil =>
    intro es excs h
    cases h
    simp [get_secret_go]
  | cons s rest ih =>
    intro es excs h
    cases h with
    | cons hse hrest =>
      obtain ⟨he, hsec⟩ := hse
      simp only [get_secret_go, he, hsec, if_true]
      rw [ih _ _ hrest]
      simp

/-- C1 (amended): for every secret config with at least one succeeding
source, provided every source before the first succeeding one fails
with a source-specific `SecretError`, `get_secret` returns the value
produced by that first succeeding source in declared order — never a
later one, with no retry across sources and no reordering.  (The
proviso is forced by the counterexample below: a pre-success source
failing with a non-`SecretError`, such as a subprocess exiting
non-zero, aborts resolution instead of falling through.) -/
theorem get_secret_first_succeeding_source (w : World) (sc : SecretConfig)
    (i : Nat) (hi : i < sc.sources.length) (v : String)
    (hok : run_source w (sc.sources.get ⟨i, hi⟩) = .ok v)
    (hfail : ∀ j (hj : j < i), ∃ e,
      run_source w (sc.sources.get ⟨j, Nat.lt_trans hj hi⟩) = .error e ∧
      e.is_secret_error = true) :
    get_secret w sc = .ok v :=
  get_secret_go_first_success w sc.secret_name sc.sources [] i hi v hok hfail

/-- A world in which only the env var `HIT` is set. -/
def w_c1 : World where
  os_environ := fun k => if k = "HIT" then some "hit-value" else none
  read_text := fun _ => none
  run_process := fun _ _ => .completed 1 "out"
  urandom_hex := fun _ => "ab"

/-- A secret whose first source misses and whose second hits. -/
def sc_c1 : SecretConfig := ⟨"S", [.envVar "S" "MISS", .envVar "S" "HIT"]⟩

/-- Witness for C1: with a missing env var before a present one,
resolution returns the second source's value. -/
theorem get_secret_first_succeeding_source_witness :
    get_secret w_c1 sc_c1 = .ok "hit-value" := by
  refine get_secret_first_succeeding_source w_c1 sc_c1 1 (by decide) "hit-value" rfl ?_
  intro j hj
  have hj0 : j = 0 := Nat.lt_one_iff.mp hj
  subst hj0
  exact ⟨.secretEnvVarNotFound "S" "MISS", rfl, rfl⟩

/-- A world where every subprocess exits 1 and only env var `GOOD` is
set. -/
def w_cpe : World where
  os_environ := fun k => if k = "GOOD" then some "good-value" else none
  read_text := fun _ => none
  run_process := fun _ _ => .completed 1 "out"
  urandom_hex := fun _ => "ab"

/-- A secret trying a non-zero-exit subprocess before a present env
var. -/
def sc_cpe : SecretConfig := ⟨"S", [.subprocess "S" "/bin/false" [], .envVar "S" "GOOD"]⟩

/-- Counterexample to C1 as stated: the second source succeeds with
"good-value" (so the config has a succeeding source), yet `get_secret`
does not return it — the first source's `CalledProcessError` (non-zero
exit) is not a `SecretError`, escapes the `except SecretError` clause
and aborts resolution. -/
theorem get_secret_nonzero_exit_skips_later_success :
    run_source w_cpe (.envVar "S" "GOOD") = .ok "good-value" ∧
    get_secret w_cpe sc_cpe = .error (.calledProcessError ["/bin/false"] 1) ∧
    get_secret w_cpe sc_cpe ≠ .ok "good-value" :=
  ⟨rfl, rfl, fun h => Except.noConfusion h⟩

/-- C4 (amended): for every secret config whose sources all fail with
source-specific `SecretError`s — which covers an env-var source with
the variable unset, a file source with an unreadable path, and a
subprocess source whose process cannot be spawned or produces empty
output — `get_secret` raises the single aggregate `SecretSourcesFailed`
carrying the secret name and exactly one failure entry per source, in
declared source order.  (The original claim also listed a subprocess
exiting non-zero; the counterexample below shows that case escapes as
an unaggregated `CalledProcessError` instead.) -/
theorem get_secret_all_sources_fail (w : World) (sc : SecretConfig)
    (es : List PyExc)
    (h : List.Forall₂
      (fun s e => run_source w s = .error e ∧ e.is_secret_error = true)
      sc.sources es) :
    get_secret w sc = .error (.secretSourcesFailed sc.secret_name es) := by
  have hgo := get_secret_go_all_fail w sc.secret_name sc.sources es [] h
  simpa [get_secret] using hgo

/-- A world with no env vars, where `spawnfail` cannot be spawned and
every other command exits 0 with empty output. -/
def w_c4 : World where
  os_environ := fun _ => none
  read_text := fun _ => none
  run_process := fun c _ => if c = "spawnfail" then .spawnFailure else .completed 0 ""
  urandom_hex := fun _ => "ab"

/-- A secret with three failing sources: unset env var, unspawnable
subprocess, empty-output subprocess. -/
def sc_c4 : SecretConfig :=
  ⟨"S", [.envVar "S" "MISS", .subprocess "S" "spawnfail" [], .subprocess "S" "emptyout" []]⟩

/-- Witness for C4: the aggregate error carries one entry per failing
source, in declared order. -/
theorem get_secret_all_sources_fail_witness :
    get_secret w_c4 sc_c4 =
      .error (.secretSourcesFailed "S"
        [.secretEnvVarNotFound "S" "MISS",
         .secretSubprocessError "S" "spawnfail",
         .secretSubprocessError "S" "emptyout"]) :=
  get_secret_all_sources_fail w_c4 sc_c4 _
    (.cons ⟨rfl, rfl⟩ (.cons ⟨rfl, rfl⟩ (.cons ⟨rfl, rfl⟩ .nil)))

/-- A secret whose only source is a subprocess that exits non-zero. -/
def sc_c4x : SecretConfig := ⟨"S", [.subprocess "S" "/bin/false" []]⟩

/-- Counterexample to C4 as stated: a subprocess source exiting
non-zero does not contribute a failure entry to the aggregate error —
`get_secret` instead propagates the raw `CalledProcessError`, which is
not a `SecretError` at all. -/
theorem get_secret_nonzero_exit_unaggregated :
    get_secret w_cpe sc_c4x = .error (.calledProcessError ["/bin/false"] 1) ∧
    PyExc.is_secret_error (.calledProcessError ["/bin/false"] 1) = false :=
  ⟨rfl, rfl⟩

/-- Helper: association-list lookup distributes over append. -/
theorem assoc_lookup_append {β : Type} (l₁ l₂ : List (String × β)) (k : String) :
    (l₁ ++ l₂).lookup k =
      match l₁.lookup k with
      | some v => some v
      | none => l₂.lookup k := by
  induction l₁ with
  | nil => simp [List.lookup]
  | cons kv rest ih =>
    obtain ⟨a, b⟩ := kv
    simp only [List.cons_append, List.lookup]
    cases h : k == a
    · simpa [h] using ih
    · simp [h]

/-- Helper: looking a key up after the first-past-the-post insertion
fold returns the accumulator's binding when present, else the first
discovered document with that id. -/
theorem load_foldl_lookup (docs : List RoomDocYaml) :
    ∀ (m : List (String × RoomConfig)) (k : String),
      (docs.foldl
        (fun m y => if (m.lookup y.id).isSome then m
          else m ++ [(y.id, RoomConfig.from_yaml y)]) m).lookup k =
      (match m.lookup k with
       | some v => some v
       | none => (docs.find? (fun y => y.id == k)).map RoomConfig.from_yaml) := by
  induction docs with
  | nil =>
    intro m k
    cases h : m.lookup k <;> simp [h]
  | cons d rest ih =>
    intro m k
    simp only [List.foldl_cons, List.find?]
    by_cases hd : (m.lookup d.id).isSome = true
    · rw [if_pos hd, ih]
      by_cases hk : k = d.id
      · subst hk
        obtain ⟨v, hv⟩ := Option.isSome_iff_exists.mp hd
        simp [hv]
      · have hne' : (d.id == k) = false := by simpa using fun h => hk h.symm
        simp [hne']
    · rw [if_neg hd, ih, assoc_lookup_append]
      by_cases hk : k = d.id
      · subst hk
        have hnone : m.lookup d.id = none := by
          cases h : m.lookup d.id
          · rfl
          · rw [h] at hd; simp at hd
        simp [hnone, List.lookup]
      · have hne : (k == d.id) = false := by simpa using hk
        have hne' : (d.id == k) = false := by simpa using fun h => hk h.symm
        cases h : m.lookup k <;> simp [h, List.lookup, hne, hne']

/-- The `./a` room root of the end-to-end scenario: its own
`room_config.yaml` declares id "lobby", name "A-Lobby". -/
def rootA : SearchRoot := ⟨some ⟨"lobby", "A-Lobby"⟩, []⟩

/-- The `./b` room root: id "lobby", name "B-Lobby". -/
def rootB : SearchRoot := ⟨some ⟨"lobby", "B-Lobby"⟩, []⟩

/-- C2: across multiple search roots iterated in declared order, the
binding for each id is the first discovered document with that id —
documents from later roots with the same id are silently discarded; in
particular, with room paths `[./a, ./b]` both declaring id "lobby", the
loaded "lobby" config carries `./a`'s name. -/
theorem room_configs_first_root_wins :
    (∀ (roots : List SearchRoot) (k : String),
      (_load_room_configs roots).lookup k =
        (((roots.map _find_configs).flatten).find? (fun y => y.id == k)).map
          RoomConfig.from_yaml) ∧
    (_load_room_configs [rootA, rootB]).lookup "lobby" =
      some ⟨"lobby", "A-Lobby"⟩ := by
  constructor
  · intro roots k
    unfold _load_room_configs
    rw [load_foldl_lookup]
    simp [List.lookup]
  · decide

/-- Whether one declared environment entry fails to resolve. -/
def entry_fails (d : List (String × String)) (p : String → Option String)
    (kv : String × Option String) : Bool :=
  match resolve_environment_entry kv.1 kv.2 d p with
  | .ok _ => false
  | .error _ => true

/-- Helper: the per-key loop of `resolve_environment`, characterized in
one pass: successes extend `resolved`, failures extend `failed` and
`excs`, all in declared key order. -/
theorem resolve_env_loop_spec (d : List (String × String))
    (p : String → Option String) :
    ∀ (env : List (String × Option String)) (resolved : List (String × String))
      (failed : List String) (excs : List PyExc),
      resolve_env_loop d p env resolved failed excs =
        (resolved ++ env.filterMap
            (fun kv => match resolve_environment_entry kv.1 kv.2 d p with
              | .ok r => some (kv.1, r)
              | .error _ => none),
         failed ++ (env.filter (fun kv => entry_fails d p kv)).map Prod.fst,
         excs ++ (env.filter (fun kv => entry_fails d p kv)).map
            (fun kv => .missingEnvVar kv.1)) := by
  intro env
  induction env with
  | nil => intro resolved failed excs; simp [resolve_env_loop]
  | cons kv rest ih =>
    intro resolved failed excs
    obtain ⟨k, v⟩ := kv
    cases h : resolve_environment_entry k v d p with
    | ok r =>
      simp [resolve_env_loop, h, ih, entry_fails]
    | error e =>
      simp [resolve_env_loop, h, ih, entry_fails]

/-- The keys of an environment map whose entries fail to resolve, in
declared order. -/
def missing_keys (env : List (String × Option String))
    (d : List (String × String)) (p : String → Option String) : List String :=
  (env.filter (fun kv => entry_fails d p kv)).map Prod.fst

/-- C3: per key, the dotenv overlay wins outright (even over a non-null
declared value); otherwise a non-null declared value; otherwise the
process environment; otherwise the key is missing — and resolution
reports all missing keys in one aggregate `MissingEnvVars` error (its
exception list has one `MissingEnvVar` per missing key, in declared
order) rather than failing at the first. -/
theorem environment_resolution_order :
    (∀ (k : String) (v : Option String) (d : List (String × String))
      (p : String → Option String) (x : String),
      d.lookup k = some x → resolve_environment_entry k v d p = .ok x) ∧
    (∀ (k x : String) (d : List (String × String)) (p : String → Option String),
      d.lookup k = none → resolve_environment_entry k (some x) d p = .ok x) ∧
    (∀ (k : String) (d : List (String × String)) (p : String → Option String)
      (x : String), d.lookup k = none → p k = some x →
      resolve_environment_entry k none d p = .ok x) ∧
    (∀ (k : String) (d : List (String × String)) (p : String → Option String),
      d.lookup k = none → p k = none →
      resolve_environment_entry k none d p = .error (.missingEnvVar k)) ∧
    (∀ (cfg : InstallationConfig) (w : EnvWorld),
      (resolve_environment cfg w).2 =
        match missing_keys cfg.environment w.dotenv_env w.os_environ with
        | [] => none
        | ms => some (.missingEnvVars (String.intercalate "," ms)
            (ms.map PyExc.missingEnvVar))) := by
  refine ⟨?_, ?_, ?_, ?_, ?_⟩
  · intro k v d p x h
    simp [resolve_environment_entry, h]
  · intro k x d p h
    simp [resolve_environment_entry, h]
  · intro k d p x h hp
    simp [resolve_environment_entry, h, hp]
  · intro k d p h hp
    simp [resolve_environment_entry, h, hp]
  · intro cfg w
    unfold resolve_environment
    rw [resolve_env_loop_spec]
    simp only [List.nil_append, missing_keys]
    cases hf : cfg.environment.filter
        (fun kv => entry_fails w.dotenv_env w.os_environ kv) with
    | nil => simp
    | cons b bs => simp [List.map_cons]

/-- Witness for C3: concrete instances of each per-key rule and of the
aggregate error. -/
theorem environment_resolution_order_witness :
    resolve_environment_entry "K" (some "declared") [("K", "dotenv")]
      (fun _ => none) = .ok "dotenv" ∧
    resolve_environment_entry "K" (some "declared") [] (fun _ => none) =
      .ok "declared" ∧
    resolve_environment_entry "K" none [] (fun _ => some "process") =
      .ok "process" ∧
    resolve_environment_entry "K" none [] (fun _ => none) =
      .error (.missingEnvVar "K") := by
  refine ⟨?_, ?_, ?_, ?_⟩
  · exact environment_resolution_order.1 "K" (some "declared") _ _ "dotenv" rfl
  · exact environment_resolution_order.2.1 "K" "declared" [] _ rfl
  · exact environment_resolution_order.2.2.1 "K" [] _ "process" rfl rfl
  · exact environment_resolution_order.2.2.2.1 "K" [] _ rfl rfl

/-- C8: environment resolution is atomic — when it raises the aggregate
missing-env-vars error, the stored environment map is left entirely in
its as-declared state; only a fully successful resolution replaces the
map, and then every stored value is a final (non-null) string. -/
theorem resolve_environment_atomic (cfg : InstallationConfig) (w : EnvWorld) :
    ((resolve_environment cfg w).2 ≠ none → (resolve_environment cfg w).1 = cfg) ∧
    ((resolve_environment cfg w).2 = none →
      ∀ kv ∈ (resolve_environment cfg w).1.environment, kv.2.isSome = true) := by
  unfold resolve_environment
  rcases hl : resolve_env_loop w.dotenv_env w.os_environ cfg.environment [] [] []
    with ⟨resolved, failed, excs⟩
  cases excs with
  | nil =>
    refine ⟨fun h => absurd rfl h, fun _ kv hkv => ?_⟩
    simp only [List.mem_map] at hkv
    obtain ⟨kv', _, hkv'⟩ := hkv
    rw [← hkv']
    rfl
  | cons e es => exact ⟨fun _ => rfl, fun h => absurd h (by simp)⟩

/-- An installation whose single declared key cannot be resolved
anywhere. -/
def cfg_c8_bad : InstallationConfig :=
  ⟨"inst", [("MISSING", none)], ⟨true, ["inst", "installation.yaml"]⟩⟩

/-- An installation whose single declared key resolves from its
declared value. -/
def cfg_c8_good : InstallationConfig :=
  ⟨"inst", [("KEY", some "value")], ⟨true, ["inst", "installation.yaml"]⟩⟩

/-- An environment world with no dotenv overlay and no process
environment. -/
def w_env : EnvWorld := ⟨[], fun _ => none, ⟨true, []⟩⟩

/-- Witness for C8: the failing installation's map is untouched, the
succeeding installation's map holds only final strings. -/
theorem resolve_environment_atomic_witness :
    (resolve_environment cfg_c8_bad w_env).1 = cfg_c8_bad ∧
    ∀ kv ∈ (resolve_environment cfg_c8_good w_env).1.environment,
      kv.2.isSome = true := by
  constructor
  · exact (resolve_environment_atomic cfg_c8_bad w_env).1 (fun h => Option.noConfusion h)
  · exact (resolve_environment_atomic cfg_c8_good w_env).2 rfl

/-- Helper: the string rendering of a resolved path is absolute (it
begins with the separator), so it never carries the `file:` prefix. -/
theorem resolve_to_str_not_file (p cwd : PyPath) :
    startswith ((p.resolve cwd).to_str) "file:" = false := rfl

/-- Helper: an already-resolved environment (every value a final string
without the `file:` prefix) maps through the resolution pipeline to
itself. -/
theorem map_resolved_id (p : String → Option String) (cp cwd : PyPath) :
    ∀ (env : List (String × Option String)),
      (∀ kv ∈ env, ∃ s, kv.2 = some s ∧ startswith s "file:" = false) →
      (env.filterMap (fun kv =>
          match resolve_environment_entry kv.1 kv.2 [] p with
          | .ok r => some (kv.1, r)
          | .error _ => none)).map
        (fun kv => (kv.1, some ( resolve_file_prefix kv.2 cp cwd))) = env := by
  intro env
  induction env with
  | nil => simp
  | cons kv rest ih =>
    intro h
    obtain ⟨s, hs, hpre⟩ := h kv (List.mem_cons_self _ _)
    have hrest := ih (fun kv hkv => h kv (List.mem_cons_of_mem _ hkv))
    obtain ⟨k, v⟩ := kv
    simp only at hs
    subst hs
    have hcons : (((k, some s) : String × Option String) :: rest).filterMap
        (fun kv =>
          match resolve_environment_entry kv.1 kv.2 [] p with
          | Except.ok r => some (kv.1, r)
          | Except.error _ => none) =
      (k, s) :: rest.filterMap
        (fun kv =>
          match resolve_environment_entry kv.1 kv.2 [] p with
          | Except.ok r => some (kv.1, r)
          | Except.error _ => none) := rfl
    rw [hcons, List.map_cons, hrest]
    have hval : resolve_file_prefix s cp cwd = s := by
      simp [ resolve_file_prefix, hpre]
    rw [hval]

/-- C7 (amended): `file:` indirection is idempotent — a value lacking
the prefix passes through `resolve_file_prefix` unchanged, and applying
the substitution twice equals applying it once (the first application
yields an absolute path string, which no longer carries the prefix);
at the map level, resolving an already-resolved environment (no dotenv
overlay, all values final prefix-free strings) changes nothing.  A
value starting with `file:file:` is NOT an error: it is resolved
exactly once, the inner `file:` surviving literally in the resulting
path (see the counterexample). -/
theorem file_indirection_idempotent :
    (∀ (v : String) (p cwd : PyPath), startswith v "file:" = false →
      resolve_file_prefix v p cwd = v) ∧
    (∀ (v : String) (p cwd : PyPath),
      resolve_file_prefix ( resolve_file_prefix v p cwd) p cwd =
        resolve_file_prefix v p cwd) ∧
    (∀ (cfg : InstallationConfig) (w : EnvWorld), w.dotenv_env = [] →
      (∀ kv ∈ cfg.environment, ∃ s, kv.2 = some s ∧ startswith s "file:" = false) →
      resolve_environment cfg w = (cfg, none)) := by
  have hid : ∀ (v : String) (p cwd : PyPath), startswith v "file:" = false →
      resolve_file_prefix v p cwd = v := by
    intro v p cwd h
    simp [ resolve_file_prefix, h]
  refine ⟨hid, ?_, ?_⟩
  · intro v p cwd
    by_cases h : startswith v "file:" = true
    · have hout : startswith ( resolve_file_prefix v p cwd) "file:" = false := by
        simp only [ resolve_file_prefix, h, if_true]
        exact resolve_to_str_not_file _ _
      exact hid _ p cwd hout
    · have hf : startswith v "file:" = false := by simpa using h
      rw [hid v p cwd hf]
      exact hid v p cwd hf
  · intro cfg w hd hres
    unfold resolve_environment
    rw [resolve_env_loop_spec]
    have hfil : cfg.environment.filter
        (fun kv => entry_fails w.dotenv_env w.os_environ kv) = [] := by
      rw [List.filter_eq_nil_iff]
      intro kv hkv
      obtain ⟨s, hs, _⟩ := hres kv hkv
      simp [entry_fails, resolve_environment_entry, hd, hs, List.lookup]
    simp only [hfil, List.map_nil, List.append_nil, List.nil_append]
    have henv := map_resolved_id w.os_environ cfg.config_path w.cwd
      cfg.environment hres
    rw [hd]
    rw [henv]

/-- The installation config file path used in concrete examples. -/
def pInst : PyPath := ⟨true, ["inst", "installation.yaml"]⟩

/-- The filesystem root, used as working directory in examples. -/
def pRoot : PyPath := ⟨true, []⟩

/-- Witness for C7: a plain value is unchanged, a `file:` value is
stable under a second application, and re-resolving a resolved
installation changes nothing. -/
theorem file_indirection_idempotent_witness :
    resolve_file_prefix "plain" pInst pRoot = "plain" ∧
    resolve_file_prefix ( resolve_file_prefix "file:data/x" pInst pRoot) pInst pRoot =
      resolve_file_prefix "file:data/x" pInst pRoot ∧
    resolve_environment cfg_c8_good w_env = (cfg_c8_good, none) := by
  refine ⟨file_indirection_idempotent.1 "plain" pInst pRoot rfl,
    file_indirection_idempotent.2.1 "file:data/x" pInst pRoot,
    file_indirection_idempotent.2.2 cfg_c8_good w_env rfl ?_⟩
  intro kv hkv
  simp only [cfg_c8_good, List.mem_singleton] at hkv
  subst hkv
  exact ⟨"value", rfl, rfl⟩

/-- An installation declaring one value with a doubled `file:` prefix. -/
def cfg_c7 : InstallationConfig := ⟨"inst", [("K", some "file:file:x")], pInst⟩

/-- Counterexample to C7 as stated: a `file:file:x` value does not
cause an error — resolution succeeds (no exception is raised), the
value being resolved exactly once into an absolute path whose final
component still carries the inner `file:` literally. -/
theorem file_file_value_not_an_error :
    (resolve_environment cfg_c7 w_env).1.environment = [("K", some "/inst/file:x")] ∧
    (resolve_environment cfg_c7 w_env).2.isNone = true ∧
    startswith "file:file:x" "file:" = true :=
  ⟨by decide, by decide, by decide⟩

/-- C9 (amended): a `SecretConfig` constructed with no sources given
(`None`, or a bare-string YAML entry) gets exactly one env-var source
whose variable name is the secret name itself, so its sources are
non-empty; construction with any non-empty explicit list keeps it.
(Construction with an explicitly *empty* sources list, however, yields
an empty sources list — see the counterexample.) -/
theorem secret_sources_default_nonempty :
    (∀ n : String, (SecretConfig.make n none).sources = [.envVar n n]) ∧
    (∀ (n : String) (srcs : List SecretSource), srcs ≠ [] →
      (SecretConfig.make n (some srcs)).sources ≠ []) ∧
    (∀ (cp : PyPath) (s : String),
      SecretConfig.from_yaml cp (.str s) = .ok ⟨s, [.envVar s s]⟩) := by
  refine ⟨fun n => rfl, ?_, fun cp s => rfl⟩
  intro n srcs h
  simpa [SecretConfig.make] using h

/-- Witness for C9: the default construction and a one-source explicit
construction both end with non-empty sources. -/
theorem secret_sources_default_nonempty_witness :
    (SecretConfig.make "API_KEY" none).sources = [.envVar "API_KEY" "API_KEY"] ∧
    (SecretConfig.make "API_KEY" (some [.randomChars "API_KEY" 16])).sources ≠ [] ∧
    SecretConfig.from_yaml pInst (.str "TOKEN") = .ok ⟨"TOKEN", [.envVar "TOKEN" "TOKEN"]⟩ :=
  ⟨secret_sources_default_nonempty.1 "API_KEY",
   secret_sources_default_nonempty.2.1 "API_KEY" _ (by simp),
   secret_sources_default_nonempty.2.2 pInst "TOKEN"⟩

/-- Counterexample to C9 as stated: an explicitly empty sources list
survives construction empty — the `__post_init__` default fires only
when `sources` is `None` — both for the direct constructor and for a
YAML mapping with `sources: []`. -/
theorem secret_sources_empty_counterexample :
    (SecretConfig.make "S" (some [])).sources = [] ∧
    SecretConfig.from_yaml pRoot (.dict "S" (some [])) = .ok ⟨"S", []⟩ :=
  ⟨rfl, rfl⟩

/-- Helper: pre-binding a keyword that the call site does not pass
simply prepends it to the call-site keywords. -/
theorem dict_update_fresh (v : PyVal) :
    ∀ (kwargs : List (String × PyVal)), kwargs.lookup "tool_config" = none →
      dict_update [("tool_config", v)] kwargs = ("tool_config", v) :: kwargs := by
  intro kwargs h
  unfold dict_update
  simp only [List.map_cons, List.map_nil, h, Option.getD_none, List.singleton_append,
    List.cons.injEq, true_and]
  induction kwargs with
  | nil => rfl
  | cons kw rest ih =>
    obtain ⟨k, w⟩ := kw
    have hk : ("tool_config" == k) = false := by
      cases hkk : ("tool_config" == k)
      · rfl
      · exfalso
        rw [List.lookup, hkk] at h
        exact Option.noConfusion h
    have hrest : rest.lookup "tool_config" = none := by
      rw [List.lookup, hk] at h
      exact h
    have hk' : (k == "tool_config") = false := by
      refine beq_eq_false_iff_ne.mpr (fun hkeq => ?_)
      rw [hkeq] at hk
      simp at hk
    have hpred : ((([("tool_config", v)] : List (String × PyVal)).lookup k).isNone) = true := by
      simp [List.lookup, hk']
    simp only [List.filter_cons, hpred, if_true]
    rw [ih hrest]

/-- C6: the capability classification of a tool's invokable is decided
on its parameter names in this order — `ctx` and `tool_config`
together raise `ToolRequirementConflict`; `ctx` alone means
needs-injected-context; `tool_config` alone means needs-own-config, in
which case `tool_with_config` wraps the invokable with `tool_config`
pre-bound to the config and removed from the visible signature;
otherwise the classification is bare (and `tool_with_config` returns
the invokable unchanged). -/
theorem tool_capability_classification (tc : ToolConfig) (tool : PyCallable) :
    ("ctx" ∈ tool.params → "tool_config" ∈ tool.params →
      tool_requires tc tool.params = .error (.toolRequirementConflict tc.tool_name)) ∧
    ("ctx" ∈ tool.params → "tool_config" ∉ tool.params →
      tool_requires tc tool.params = .ok .fastapi_context ∧
      tool_with_config tc tool = .ok tool) ∧
    ("ctx" ∉ tool.params → "tool_config" ∈ tool.params →
      tool_requires tc tool.params = .ok .tool_config ∧
      ∃ wrapped, tool_with_config tc tool = .ok wrapped ∧
        wrapped.params = tool.params.filter (fun p => p != "tool_config") ∧
        ∀ kwargs, kwargs.lookup "tool_config" = none →
          wrapped.call kwargs =
            tool.call (("tool_config", .toolConfig tc) :: kwargs)) ∧
    ("ctx" ∉ tool.params → "tool_config" ∉ tool.params →
      tool_requires tc tool.params = .ok .bare ∧
      tool_with_config tc tool = .ok tool) := by
  refine ⟨?_, ?_, ?_, ?_⟩
  · intro h1 h2
    simp [tool_requires, h1, h2]
  · intro h1 h2
    have hreq : tool_requires tc tool.params = .ok .fastapi_context := by
      simp [tool_requires, h1, h2]
    exact ⟨hreq, by simp [tool_with_config, hreq]⟩
  · intro h1 h2
    have hreq : tool_requires tc tool.params = .ok .tool_config := by
      simp [tool_requires, h1, h2]
    refine ⟨hreq, ⟨tool.params.filter (fun p => p != "tool_config"),
      fun kwargs => tool.call (dict_update [("tool_config", .toolConfig tc)] kwargs)⟩,
      by simp [tool_with_config, hreq], rfl, ?_⟩
    intro kwargs hkw
    exact congrArg tool.call (dict_update_fresh (.toolConfig tc) kwargs hkw)
  · intro h1 h2
    have hreq : tool_requires tc tool.params = .ok .bare := by
      simp [tool_requires, h1, h2]
    exact ⟨hreq, by simp [tool_with_config, hreq]⟩

/-- A tool config referencing an unregistered invokable, used in
examples. -/
def tc_demo : ToolConfig := ⟨"soliplex.tools.frobnicate", false⟩

/-- An invokable declaring both `ctx` and `tool_config`. -/
def tool_both : PyCallable := ⟨["ctx", "tool_config"], fun _ => .pyNone⟩

/-- An invokable declaring `ctx` only. -/
def tool_ctx : PyCallable := ⟨["ctx", "query"], fun _ => .pyNone⟩

/-- An invokable declaring `tool_config` (and a query). -/
def tool_cfg : PyCallable := ⟨["query", "tool_config"], fun kwargs => .str (toString kwargs.length)⟩

/-- An invokable declaring neither special parameter. -/
def tool_bare : PyCallable := ⟨["query"], fun _ => .pyNone⟩

/-- Witness for C6: the four classifications at concrete parameter
lists, and the wrapped callable's signature and pre-bound call. -/
theorem tool_capability_classification_witness :
    tool_requires tc_demo tool_both.params =
      .error (.toolRequirementConflict "soliplex.tools.frobnicate") ∧
    tool_requires tc_demo tool_ctx.params = .ok .fastapi_context ∧
    tool_requires tc_demo tool_cfg.params = .ok .tool_config ∧
    tool_requires tc_demo tool_bare.params = .ok .bare ∧
    ∃ wrapped, tool_with_config tc_demo tool_cfg = .ok wrapped ∧
      wrapped.params = ["query"] ∧
      wrapped.call [("query", .str "hello")] =
        tool_cfg.call
          [("tool_config", .toolConfig tc_demo), ("query", .str "hello")] := by
  obtain ⟨hreq, wrapped, hw, hp, hcall⟩ :=
    (tool_capability_classification tc_demo tool_cfg).2.2.1 (by decide) (by decide)
  refine ⟨(tool_capability_classification tc_demo tool_both).1 (by decide) (by decide),
    ((tool_capability_classification tc_demo tool_ctx).2.1 (by decide) (by decide)).1,
    hreq,
    ((tool_capability_classification tc_demo tool_bare).2.2.2 (by decide) (by decide)).1,
    wrapped, hw, ?_, hcall [("query", .str "hello")] rfl⟩
  rw [hp]
  decide

/-- Helper: an entry with an unregistered MCP toolset kind makes the
extraction loop fail, whatever came before it. -/
theorem extract_mcp_go_error (nm : String) (y : McpYaml)
    (h1 : y.kind ≠ "stdio") (h2 : y.kind ≠ "http") :
    ∀ (entries : List (String × McpYaml))
      (acc : List (String × MCP_ClientToolsetConfig)),
      (nm, y) ∈ entries →
      ∃ e, extract_mcp_client_toolset_configs_go acc entries = .error e := by
  intro entries
  induction entries with
  | nil => intro acc h; simp at h
  | cons kv rest ih =>
    intro acc hmem
    rcases List.mem_cons.mp hmem with heq | hmem'
    · subst heq
      have hbad : build_mcp_client_toolset_config y = .error (.keyError y.kind) := by
        simp [build_mcp_client_toolset_config, h1, h2]
      exact ⟨.keyError y.kind,
        by simp [extract_mcp_client_toolset_configs_go, hbad]⟩
    · cases hbk : build_mcp_client_toolset_config kv.2 with
      | error e =>
        exact ⟨e, by simp [extract_mcp_client_toolset_configs_go, hbk]⟩
      | ok c =>
        obtain ⟨e, he⟩ := ih (acc ++ [(kv.1, c)]) hmem'
        exact ⟨e, by simp [extract_mcp_client_toolset_configs_go, hbk, he]⟩

/-- Helper: a source entry with an unregistered kind makes the
source-building loop of `SecretConfig.from_yaml` fail. -/
theorem build_sources_error (y : SourceYaml)
    (hk : y.kind ∉ (["env_var", "file_path", "subprocess", "random_chars"] : List String)) :
    ∀ (n : String) (cp : PyPath) (srcs : List SourceYaml), y ∈ srcs →
      ∃ e, build_sources n cp srcs = .error e := by
  intro n cp srcs
  induction srcs with
  | nil => intro h; simp at h
  | cons z rest ih =>
    intro hmem
    rcases List.mem_cons.mp hmem with heq | hmem'
    · subst heq
      simp only [List.mem_cons, List.mem_singleton, not_or] at hk
      obtain ⟨h1, h2, h3, h4⟩ := hk
      have hbad : build_secret_source n cp y = .error (.keyError y.kind) := by
        simp [build_secret_source, h1, h2, h3, h4]
      exact ⟨.keyError y.kind, by simp [build_sources, hbad]⟩
    · cases hbz : build_secret_source n cp z with
      | error e => exact ⟨e, by simp [build_sources, hbz]⟩
      | ok s =>
        obtain ⟨e, he⟩ := ih hmem'
        exact ⟨e, by simp [build_sources, hbz, he]⟩

/-- C5: during construction from YAML, a tool entry whose `tool_name`
is not registered is built as the minimal bare `ToolConfig` (no
failure), whereas an `mcp_client_toolsets` entry whose `kind` is not
registered, and a secret source whose `kind` is not registered, each
make construction fail. -/
theorem unknown_discriminator_asymmetry :
    (∀ y : ToolYaml, y.tool_name ∉ TOOL_CONFIG_REGISTERED_NAMES →
      y.kind = none → y.rag_lancedb_stem = none → y.rag_lancedb_override_path = none →
      build_tool_config y = .ok (.base ⟨y.tool_name, y.allow_mcp⟩)) ∧
    (∀ (entries : List (String × McpYaml)) (nm : String) (y : McpYaml),
      (nm, y) ∈ entries → y.kind ≠ "stdio" → y.kind ≠ "http" →
      ∃ e, extract_mcp_client_toolset_configs entries = .error e) ∧
    (∀ (cp : PyPath) (n : String) (srcs : List SourceYaml) (y : SourceYaml),
      y ∈ srcs →
      y.kind ∉ (["env_var", "file_path", "subprocess", "random_chars"] : List String) →
      ∃ e, SecretConfig.from_yaml cp (.dict n (some srcs)) = .error e) := by
  refine ⟨?_, ?_, ?_⟩
  · intro y hreg hk hs ho
    simp [build_tool_config, hreg, ToolConfig.from_yaml, hk, hs, ho]
    rfl
  · intro entries nm y hmem h1 h2
    exact extract_mcp_go_error nm y h1 h2 entries [] hmem
  · intro cp n srcs y hmem hk
    obtain ⟨e, he⟩ := build_sources_error y hk n cp srcs hmem
    refine ⟨e, ?_⟩
    show (build_sources n cp srcs).map (fun srcs => SecretConfig.make n (some srcs)) =
      .error e
    rw [he]
    rfl

/-- Witness for C5: an unregistered tool name builds a bare config; an
unregistered MCP kind and an unregistered secret-source kind both
fail. -/
theorem unknown_discriminator_asymmetry_witness :
    build_tool_config { tool_name := "soliplex.tools.frobnicate" } =
      .ok (.base ⟨"soliplex.tools.frobnicate", false⟩) ∧
    (∃ e, extract_mcp_client_toolset_configs [("srv", { kind := "websocket" })] =
      .error e) ∧
    (∃ e, SecretConfig.from_yaml pInst (.dict "S" (some [{ kind := "vault" }])) =
      .error e) :=
  ⟨unknown_discriminator_asymmetry.1 _ (by decide) rfl rfl rfl,
   unknown_discriminator_asymmetry.2.1 _ "srv" { kind := "websocket" }
     (List.mem_singleton.mpr rfl) (by decide) (by decide),
   unknown_discriminator_asymmetry.2.2 pInst "S" _ { kind := "vault" }
     (List.mem_singleton.mpr rfl) (by decide)⟩

/-- The last dotted segment of a name. -/
def last_dotted_segment (s : String) : Option String :=
  (split_on_char '.' s).reverse.head?

/-- C10 (amended): for a bare `ToolConfig` built from YAML whose
`tool_name` contains a dot, reading back `kind` gives the last dotted
segment of `tool_name`; for the registered `SearchDocumentsToolConfig`
variant, `kind` is an ordinary stored field that defaults to
"search_documents" — the last dotted segment of its tool name — when
the document does not set it.  (The counterexample shows the variant's
stored `kind` can be overridden from YAML, breaking the unconditional
round-trip; a dotless `tool_name` would also make the base `kind`
property raise `ValueError`.) -/
theorem tool_kind_round_trip :
    (∀ y : ToolYaml, y.tool_name ∉ TOOL_CONFIG_REGISTERED_NAMES →
      y.kind = none → y.rag_lancedb_stem = none → y.rag_lancedb_override_path = none →
      2 ≤ (split_on_char '.' y.tool_name).length →
      ∃ tc, build_tool_config y = .ok (.base tc) ∧
        ∃ k, ToolConfigVariant.kind_attr (.base tc) = .ok k ∧
          last_dotted_segment y.tool_name = some k) ∧
    (∀ y : ToolYaml, y.tool_name = "soliplex.tools.search_documents" →
      y.kind = none →
      ([y.rag_lancedb_stem, y.rag_lancedb_override_path].filter truthy).length = 1 →
      ∃ tc, build_tool_config y = .ok (.search tc) ∧ tc.kind = "search_documents" ∧
        last_dotted_segment y.tool_name = some "search_documents") := by
  constructor
  · intro y hreg hk hs ho hlen
    refine ⟨⟨y.tool_name, y.allow_mcp⟩, ?_, ?_⟩
    · simp [build_tool_config, hreg, ToolConfig.from_yaml, hk, hs, ho]
      rfl
    · cases hrev : (split_on_char '.' y.tool_name).reverse with
      | nil =>
        exfalso
        rw [← List.length_reverse (split_on_char '.' y.tool_name), hrev] at hlen
        simp at hlen
      | cons k tail =>
        cases tail with
        | nil =>
          exfalso
          rw [← List.length_reverse (split_on_char '.' y.tool_name), hrev] at hlen
          simp at hlen
        | cons k2 t2 =>
          exact ⟨k, by simp [ToolConfigVariant.kind_attr, ToolConfig.kind_attr, hrev],
            by simp [last_dotted_segment, hrev]⟩
  · intro y hname hk hcount
    have hreg : y.tool_name ∈ TOOL_CONFIG_REGISTERED_NAMES := by
      rw [hname]; decide
    refine ⟨sdtc_of y, ?_, ?_, ?_⟩
    · simp [build_tool_config, hreg, SearchDocumentsToolConfig.from_yaml, hcount]
      rfl
    · simp [sdtc_of, hk]
    · rw [hname]; rfl

/-- A bare tool entry with a dotted, unregistered name. -/
def y_base : ToolYaml := { tool_name := "soliplex.tools.frobnicate" }

/-- A search-documents tool entry without an explicit `kind`. -/
def y_search : ToolYaml :=
  { tool_name := "soliplex.tools.search_documents", rag_lancedb_stem := some "corpus" }

/-- Witness for C10: both round-trip cases at concrete entries. -/
theorem tool_kind_round_trip_witness :
    (∃ tc, build_tool_config y_base = .ok (.base tc) ∧
      ∃ k, ToolConfigVariant.kind_attr (.base tc) = .ok k ∧
        last_dotted_segment y_base.tool_name = some k) ∧
    (∃ tc, build_tool_config y_search = .ok (.search tc) ∧
      tc.kind = "search_documents" ∧
      last_dotted_segment y_search.tool_name = some "search_documents") :=
  ⟨tool_kind_round_trip.1 y_base (by decide) rfl rfl rfl (by decide),
   tool_kind_round_trip.2 y_search rfl rfl (by decide)⟩

/-- A search-documents tool entry that sets `kind` explicitly. -/
def y_kind_override : ToolYaml :=
  { tool_name := "soliplex.tools.search_documents", kind := some "custom",
    rag_lancedb_stem := some "corpus" }

/-- Counterexample to C10 as stated: the search variant stores `kind`
as an ordinary dataclass field, so a YAML document can set it to a
value different from the last dotted segment of `tool_name`, and the
readback returns that value. -/
theorem tool_kind_override_counterexample :
    build_tool_config y_kind_override = .ok (.search (sdtc_of y_kind_override)) ∧
    ToolConfigVariant.kind_attr (.search (sdtc_of y_kind_override)) = .ok "custom" ∧
    last_dotted_segment "soliplex.tools.search_documents" = some "search_documents" ∧
    "custom" ≠ "search_documents" :=
  ⟨rfl, rfl, rfl, by decide⟩

end Soliplex
